import Mathlib

/-!
Shallow embedding of the carbon-emission demo repository: the offline
training script (ml/train_model.py) and the Flask prediction server
(app.py), restricted to the feature-schema contract, the fleet-average
computation, per-request inference and artifact persistence.  Machine
floats are modelled as rationals; pandas missing values (NaN) and Python
None are represented explicitly.
-/

/-- A cell of a loaded CSV table: missing (NaN), numeric, or text. -/
inductive Cell
  | na
  | num (q : ℚ)
  | str (s : String)
deriving DecidableEq

/-- Whether a cell holds text. -/
def Cell.isStr : Cell → Bool
  | Cell.str _ => true
  | _ => false

/-- A loaded table, as produced by pd.read_csv: an ordered list of column
names, and rows given as association lists from column name to cell. -/
structure DataFrame where
  columns : List String
  rows : List (List (String × Cell))
deriving DecidableEq

namespace DataFrame

/-- The cells of one column, in row order; a row without the key yields NaN. -/
def col (df : DataFrame) (c : String) : List Cell :=
  df.rows.map (fun r => (r.lookup c).getD Cell.na)

end DataFrame

/-- The numeric entries of a column, in order (pandas drops NaN entries when
it averages a series). -/
def presentNums (cells : List Cell) : List ℚ :=
  cells.filterMap (fun x => match x with | Cell.num q => some q | _ => none)

/-- A Python float that may be NaN (pandas mean of an empty series). -/
inductive PyFloat
  | nan
  | val (q : ℚ)
deriving DecidableEq

/-- pandas Series.mean: the arithmetic mean of the non-missing numeric
entries, NaN when there are none. -/
def seriesMean (cells : List Cell) : PyFloat :=
  let xs := presentNums cells
  if xs.length = 0 then PyFloat.nan else PyFloat.val (xs.sum / xs.length)

/-- The Python exception kinds the embedded code can raise. -/
inductive PyExc
  | valueError
  | typeError
  | keyError
  | attributeError
  | indexError
deriving DecidableEq

/-- Digits of a decimal literal read as a natural number; none when the list
is empty or holds a non-digit. -/
def parseNatDigits (cs : List Char) : Option Nat :=
  if cs.isEmpty then none
  else
    cs.foldl
      (fun acc c =>
        match acc with
        | none => none
        | some n => if c.isDigit then some (10 * n + (c.toNat - 48)) else none)
      (some 0)

/-- The parts of a plain decimal literal: sign, integer digits, fractional
digits and the count of fractional digits. -/
structure FloatLit where
  neg : Bool
  intPart : Nat
  fracPart : Nat
  fracLen : Nat
deriving DecidableEq

/-- Scan a plain decimal string (surrounding whitespace allowed, optional
sign, digits with an optional fractional part); none when the string is not
such a literal. -/
def parseFloatLit (s : String) : Option FloatLit :=
  let cs := ((s.toList.dropWhile Char.isWhitespace).reverse.dropWhile
      Char.isWhitespace).reverse
  let signed : Bool × List Char :=
    match cs with
    | '-' :: rest => (true, rest)
    | '+' :: rest => (false, rest)
    | _ => (false, cs)
  let intDigits := signed.2.takeWhile (fun c => c ≠ '.')
  let rest := signed.2.dropWhile (fun c => c ≠ '.')
  match rest with
  | [] =>
    match parseNatDigits intDigits with
    | some n => some ⟨signed.1, n, 0, 0⟩
    | none => none
  | _ :: frac =>
    if intDigits.isEmpty ∧ frac.isEmpty then none
    else
      let ip : Option Nat := if intDigits.isEmpty then some 0 else parseNatDigits intDigits
      let fp : Option Nat := if frac.isEmpty then some 0 else parseNatDigits frac
      match ip, fp with
      | some i, some f => some ⟨signed.1, i, f, frac.length⟩
      | _, _ => none

/-- The rational value of a decimal literal. -/
def FloatLit.toRat (l : FloatLit) : ℚ :=
  (if l.neg then -1 else 1) * ((l.intPart : ℚ) + (l.fracPart : ℚ) / (10 ^ l.fracLen))

/-- Python float(s) on a plain decimal string. -/
def parseFloat (s : String) : Option ℚ :=
  (parseFloatLit s).map FloatLit.toRat

/-- The schema/metadata record shared by trainer and server: the dict written
to ml/metadata.json by the trainer and read back (or defaulted) by app.py. -/
structure MetaDict where
  categorical : List String
  numeric : List String
  target : String
deriving DecidableEq

namespace TrainModel

/-- train_model.py line 24. -/
def CATEGORICAL_COLS : List String := ["Make", "Model", "Fuel"]

/-- train_model.py line 25. -/
def NUMERIC_COLS : List String := ["EngineSize", "Cylinders", "FuelConsumption"]

/-- train_model.py line 26. -/
def TARGET : String := "CO2Emissions"

/-- train_model.py line 27. -/
def REQUIRED_COLUMNS : List String := CATEGORICAL_COLS ++ NUMERIC_COLS ++ [TARGET]

/-- train_model.py line 36: the required columns absent from the loaded table. -/
def missing_cols (df : DataFrame) : List String :=
  REQUIRED_COLUMNS.filter (fun c => ¬ c ∈ df.columns)

/-- The feature_info record the trainer serializes to ml/metadata.json
(train_model.py lines 96-101; the metrics entries are diagnostic only and not
part of the schema contract). -/
def feature_info : MetaDict :=
  ⟨CATEGORICAL_COLS, NUMERIC_COLS, TARGET⟩

/-- How a training run can abort. -/
inductive TrainError
  | dataUnreadable
  | missingColumns (cols : List String)
  | metaWriteFailed
deriving DecidableEq

/-- Which of the two output artifacts exist on disk after a run. -/
structure Artifacts where
  modelWritten : Bool
  metaWritten : Bool
deriving DecidableEq

/-- One training run (train_model.py lines 32-104): Load, then Validate
(raising ValueError that names the missing columns), then the pure
Fit/Evaluate steps, then joblib.dump of the model followed by the metadata
write.  dfLoaded none models an unreadable dataset; metaWriteOk false models
a metadata write that raises after the model dump already happened. -/
def trainRun (dfLoaded : Option DataFrame) (metaWriteOk : Bool) :
    Except TrainError Unit × Artifacts :=
  match dfLoaded with
  | none => (Except.error TrainError.dataUnreadable, ⟨false, false⟩)
  | some df =>
    let missing := missing_cols df
    if missing.isEmpty then
      if metaWriteOk then (Except.ok (), ⟨true, true⟩)
      else (Except.error TrainError.metaWriteFailed, ⟨true, false⟩)
    else (Except.error (TrainError.missingColumns missing), ⟨false, false⟩)

/-- The handle_unknown policy of a fitted one-hot encoder: the library raises
on a category unseen at fit time under "error", and emits the all-zero
indicator row under "ignore".  train_model.py line 48 selects "ignore". -/
inductive HandleUnknown
  | raiseOnUnknown
  | ignoreUnknown
deriving DecidableEq

/-- A fitted one-hot step applied to one value: a seen category yields its
indicator row over the fit-time category list; an unseen one follows the
handle_unknown policy. -/
def oneHotTransform (hu : HandleUnknown) (categories : List String) (v : String) :
    Except PyExc (List ℚ) :=
  if v ∈ categories then Except.ok (categories.map (fun c => if c = v then 1 else 0))
  else
    match hu with
    | HandleUnknown.raiseOnUnknown => Except.error PyExc.valueError
    | HandleUnknown.ignoreUnknown => Except.ok (List.replicate categories.length 0)

/-- The fit-time state of the categorical transformer for one column:
the most-frequent fill value of the imputer and the seen category list. -/
structure FittedCatEncoder where
  fillValue : String
  categories : List String
deriving DecidableEq

/-- categorical_transformer (train_model.py lines 46-49) applied at inference
to one cell: SimpleImputer most_frequent fills a missing value with the
fit-time most frequent one, then the one-hot step encodes with
handle_unknown as configured. -/
def catTransform (enc : FittedCatEncoder) (hu : HandleUnknown) (v : Option String) :
    Except PyExc (List ℚ) :=
  oneHotTransform hu enc.categories (v.getD enc.fillValue)

/-- A fitted pipeline: per-categorical-column encoder states, per-numeric
median fill values, and the frozen random-forest regression map. -/
structure FittedPipeline where
  catEncoders : List FittedCatEncoder
  numMedians : List ℚ
  rf : List ℚ → ℚ

/-- Apply the fitted categorical encoders columnwise, left to right; the
first raising encoder aborts the whole transform. -/
def encodeCats : List (Option String × FittedCatEncoder) →
    Except PyExc (List (List ℚ))
  | [] => Except.ok []
  | p :: ps =>
    match catTransform p.2 HandleUnknown.ignoreUnknown p.1 with
    | Except.error e => Except.error e
    | Except.ok l =>
      match encodeCats ps with
      | Except.error e => Except.error e
      | Except.ok ls => Except.ok (l :: ls)

/-- Single-row predict of the fitted pipeline: encode each categorical value
(with handle_unknown="ignore" as fitted), median-impute each missing numeric,
and apply the frozen regressor to the assembled feature vector. -/
def pipePredict (m : FittedPipeline) (catVals : List (Option String))
    (numVals : List (Option ℚ)) : Except PyExc ℚ :=
  match encodeCats (catVals.zip m.catEncoders) with
  | Except.error e => Except.error e
  | Except.ok encoded =>
    let nums := (numVals.zip m.numMedians).map (fun p => p.1.getD p.2)
    Except.ok (m.rf (encoded.flatten ++ nums))

end TrainModel

namespace App

/-- app.py lines 30-34: the hardcoded fallback schema used when
ml/metadata.json is absent. -/
def default_meta : MetaDict :=
  ⟨["Make", "Model", "Fuel", "Transmission"],
   ["EngineSize", "Cylinders", "FuelConsumption"],
   "CO2Emissions"⟩

/-- app.py lines 26-34: metadata loading at startup — the file contents when
the file is present, else the hardcoded fallback. -/
def loadMeta (metaFile : Option MetaDict) : MetaDict := metaFile.getD default_meta

/-- The set of columns the handler reads from a submission and feeds to the
model: the loaded schema's categorical then numeric columns (app.py
lines 268, 271-272). -/
def predictorRequired (m : MetaDict) : List String := m.categorical ++ m.numeric

/-- The feature columns whose presence the trainer validates (its declared
categorical plus numeric constants). -/
def trainerFeatureCols : List String :=
  TrainModel.CATEGORICAL_COLS ++ TrainModel.NUMERIC_COLS

/-- Insert a string into an ascending list, keeping it ascending; strings
compare lexicographically by their character lists, the order Python sorted()
uses on text. -/
def insertAsc (s : String) : List String → List String
  | [] => [s]
  | t :: ts => if t.data < s.data then t :: insertAsc s ts else s :: t :: ts

/-- Python sorted() on a list of strings. -/
def sortStrings (l : List String) : List String := l.foldr insertAsc []

/-- sorted(series.dropna().unique()) for a dropdown column: the distinct
non-missing text values in ascending order. -/
def sortedUnique (cells : List Cell) : List String :=
  sortStrings
    ((cells.filterMap (fun x => match x with | Cell.str s => some s | _ => none)).dedup)

/-- app.py line 50: the fleet average as a function of the loaded reference
data — the pandas mean of the target column when a table loaded, Python None
otherwise. -/
def computeFleetAvg (fleet_df : Option DataFrame) (target : String) : Option PyFloat :=
  match fleet_df with
  | some df => some (seriesMean (df.col target))
  | none => none

/-- The module-level state app.py builds at import time and every request
reads. -/
structure ServerState where
  meta : MetaDict
  fleet_df : Option DataFrame
  fleet_avg : Option PyFloat
  dropdown_values : List (String × List String)
deriving DecidableEq

/-- How server startup can fail before serving anything. -/
inductive StartupError
  | fileNotFound
  | keyError
  | attributeError
deriving DecidableEq

/-- Server startup (app.py lines 20-54): require the model artifact, load
metadata with fallback, take the loaded reference CSV if any, compute the
fleet average, then build the dropdown map.  When no reference CSV loaded,
fleet_df is None and evaluating fleet_df.columns inside the dropdown
comprehension raises AttributeError as soon as the categorical list is
nonempty.  When the target column is absent from the loaded CSV,
fleet_df[TARGET] raises KeyError first. -/
def startup (modelExists : Bool) (metaFile : Option MetaDict)
    (dataLoaded : Option DataFrame) : Except StartupError ServerState :=
  if modelExists then
    let meta := loadMeta metaFile
    match dataLoaded with
    | none =>
      if meta.categorical.isEmpty then
        Except.ok ⟨meta, none, computeFleetAvg none meta.target, []⟩
      else Except.error StartupError.attributeError
    | some df =>
      if meta.target ∈ df.columns then
        Except.ok ⟨meta, some df, computeFleetAvg (some df) meta.target,
          meta.categorical.map
            (fun c => (c, if c ∈ df.columns then sortedUnique (df.col c) else []))⟩
      else Except.error StartupError.keyError
  else Except.error StartupError.fileNotFound

/-- A submitted form: field name to submitted text. -/
abbrev Form := List (String × String)

/-- request.form.get. -/
def formGet (f : Form) (c : String) : Option String := f.lookup c

/-- A value stored in the single-row frame: Python None, text, or float. -/
inductive Value
  | none
  | str (s : String)
  | num (q : ℚ)
deriving DecidableEq

/-- Python float(x) applied to an optional form value: float(None) raises
TypeError, an unparseable string raises ValueError. -/
def pyFloat (v : Option String) : Except PyExc ℚ :=
  match v with
  | Option.none => Except.error PyExc.typeError
  | some s =>
    match parseFloat s with
    | some q => Except.ok q
    | Option.none => Except.error PyExc.valueError

/-- One entry of the row dict of app.py line 271: a numeric column passes its
submitted value through float(), a categorical column is stored as submitted
(None when the field is absent). -/
def rowCell (numeric : List String) (f : Form) (c : String) :
    Except PyExc (String × Value) :=
  if c ∈ numeric then
    match pyFloat (formGet f c) with
    | Except.ok q => Except.ok (c, Value.num q)
    | Except.error e => Except.error e
  else
    Except.ok (c,
      match formGet f c with
      | some s => Value.str s
      | Option.none => Value.none)

/-- The row comprehension evaluated left to right over a column list; the
first raising entry aborts the whole construction. -/
def buildRowAux (numeric : List String) (f : Form) :
    List String → Except PyExc (List (String × Value))
  | [] => Except.ok []
  | c :: cs =>
    match rowCell numeric f c with
    | Except.error e => Except.error e
    | Except.ok v =>
      match buildRowAux numeric f cs with
      | Except.error e => Except.error e
      | Except.ok rest => Except.ok (v :: rest)

/-- app.py lines 271-272: the single-row frame over CATEGORICAL + NUMERIC in
schema order. -/
def buildRow (meta : MetaDict) (f : Form) : Except PyExc (List (String × Value)) :=
  buildRowAux meta.numeric f (meta.categorical ++ meta.numeric)

/-- Round half to even on an integer boundary, the tie rule of Python round. -/
def roundHalfEven (x : ℚ) : ℤ :=
  let f := Int.floor x
  let r := x - f
  if r < 1 / 2 then f
  else if r > 1 / 2 then f + 1
  else if f % 2 = 0 then f else f + 1

/-- Python round(x, 2). -/
def pyRound2 (x : ℚ) : ℚ := (roundHalfEven (x * 100) : ℚ) / 100

/-- app.py lines 292-297: the tip list for a prediction above fleet average. -/
def suggestions_above : List String :=
  ["Consider regular maintenance to improve fuel efficiency.",
   "Carpool whenever possible to reduce per-person emissions.",
   "Adopt smooth driving habits to reduce fuel use.",
   "Explore hybrid or electric vehicles for the future."]

/-- app.py lines 299-304: the tip list otherwise. -/
def suggestions_below : List String :=
  ["Great job! Your car is performing better than the fleet average.",
   "Keep maintaining your vehicle regularly.",
   "Try using biofuels or renewable energy options when possible.",
   "Also use safety measures to increase rider safety"]

/-- The Python comparison prediction > fleet_avg: comparing a float with None
raises TypeError; any comparison with NaN is False. -/
def pyGtFleet (p : ℚ) (fa : Option PyFloat) : Except PyExc Bool :=
  match fa with
  | Option.none => Except.error PyExc.typeError
  | some PyFloat.nan => Except.ok false
  | some (PyFloat.val q) => Except.ok (decide (p > q))

/-- app.py lines 291-304: the suggestion block selected by the comparison —
one fixed list per branch, no other computation. -/
def suggestionsFor (p : ℚ) (fa : Option PyFloat) : Except PyExc (List String) :=
  match pyGtFleet p fa with
  | Except.error e => Except.error e
  | Except.ok b => Except.ok (if b then suggestions_above else suggestions_below)

/-- What the result box displays: a rounded prediction, or the per-request
error text rendered from a caught exception (app.py line 306). -/
inductive PredDisplay
  | value (q : ℚ)
  | errorText (e : PyExc)
deriving DecidableEq

/-- One handler invocation: a rendered page (with optional result display and
suggestion list), or an exception that escaped the handler and is left to the
framework. -/
inductive HomeResult
  | page (prediction : Option PredDisplay) (suggestions : List String)
  | unhandled (e : PyExc)
deriving DecidableEq

/-- The try block of app.py lines 274-304: model.predict on the single row,
first element of the result, round to 2 decimals, then the comparison and the
suggestion lookup.  (The chart step is a stock library call consuming the two
numbers and is not modelled.) -/
def tryBlock (st : ServerState)
    (predict : List (String × Value) → Except PyExc (List ℚ))
    (row : List (String × Value)) : Except PyExc (ℚ × List String) :=
  match predict row with
  | Except.error e => Except.error e
  | Except.ok preds =>
    match preds.head? with
    | Option.none => Except.error PyExc.indexError
    | some p0 =>
      match suggestionsFor (pyRound2 p0) st.fleet_avg with
      | Except.error e => Except.error e
      | Except.ok sugg => Except.ok (pyRound2 p0, sugg)

/-- The request handler home (app.py lines 264-320).  A GET renders the bare
form.  A POST builds the payload and the typed row outside any try block, so
an exception raised there escapes the handler; the predict/suggestion block
runs inside try/except and a caught exception becomes the per-request error
text.  The handler assigns no module global, so the server state it read is
returned unchanged. -/
def home (st : ServerState)
    (predict : List (String × Value) → Except PyExc (List ℚ))
    (form : Option Form) : HomeResult × ServerState :=
  match form with
  | Option.none => (HomeResult.page Option.none [], st)
  | some f =>
    match buildRow st.meta f with
    | Except.error e => (HomeResult.unhandled e, st)
    | Except.ok row =>
      match tryBlock st predict row with
      | Except.ok pr => (HomeResult.page (some (PredDisplay.value pr.1)) pr.2, st)
      | Except.error e => (HomeResult.page (some (PredDisplay.errorText e)) [], st)

end App

namespace App

/-- A small reference table with the full column set, for concrete runs. -/
def demo_df : DataFrame :=
  ⟨["Make", "Model", "Fuel", "Transmission",
    "EngineSize", "Cylinders", "FuelConsumption", "CO2Emissions"],
   [[("Make", Cell.str "Toyota"), ("Model", Cell.str "Corolla"),
     ("Fuel", Cell.str "Gasoline"), ("Transmission", Cell.str "AT"),
     ("EngineSize", Cell.num 2), ("Cylinders", Cell.num 4),
     ("FuelConsumption", Cell.num (13 / 2)), ("CO2Emissions", Cell.num 160)],
    [("Make", Cell.str "Honda"), ("Model", Cell.str "Civic"),
     ("Fuel", Cell.str "Diesel"), ("Transmission", Cell.str "MT"),
     ("EngineSize", Cell.num (3 / 2)), ("Cylinders", Cell.num 4),
     ("FuelConsumption", Cell.num 5), ("CO2Emissions", Cell.num 200)],
    [("Make", Cell.str "Tata"), ("Model", Cell.str "Nexon"),
     ("Fuel", Cell.str "Petrol"), ("Transmission", Cell.str "AT"),
     ("EngineSize", Cell.num (6 / 5)), ("Cylinders", Cell.num 3),
     ("FuelConsumption", Cell.num 6), ("CO2Emissions", Cell.na)]]⟩

/-- A concrete server state: fallback schema, demo reference data, fleet
average 180 (the mean of 160 and 200; the third row has no target value). -/
def demo_state : ServerState :=
  ⟨default_meta, some demo_df, some (PyFloat.val 180), []⟩

/-- The server state that startup actually produces from demo_df in the
no-metadata-file configuration. -/
def demo_started : ServerState :=
  ⟨default_meta, some demo_df, some (PyFloat.val 180),
   [("Make", ["Honda", "Tata", "Toyota"]),
    ("Model", ["Civic", "Corolla", "Nexon"]),
    ("Fuel", ["Diesel", "Gasoline", "Petrol"]),
    ("Transmission", ["AT", "MT"])]⟩

/-- A frozen model stub returning one constant prediction. -/
def demo_predict : List (String × App.Value) → Except PyExc (List ℚ) :=
  fun _ => Except.ok [1653 / 10]

/-- A fully valid submission for the fallback schema. -/
def form_good : Form :=
  [("Make", "Toyota"), ("Model", "Corolla"), ("Fuel", "Gasoline"),
   ("Transmission", "AT"), ("EngineSize", "2.0"), ("Cylinders", "4"),
   ("FuelConsumption", "6.5")]

/-- The same submission with an unparseable EngineSize. -/
def form_bad : Form :=
  [("Make", "Toyota"), ("Model", "Corolla"), ("Fuel", "Gasoline"),
   ("Transmission", "AT"), ("EngineSize", "abc"), ("Cylinders", "4"),
   ("FuelConsumption", "6.5")]

/-- The row the handler builds from form_good under the fallback schema. -/
def demo_row : List (String × Value) :=
  [("Make", Value.str "Toyota"), ("Model", Value.str "Corolla"),
   ("Fuel", Value.str "Gasoline"), ("Transmission", Value.str "AT"),
   ("EngineSize", Value.num 2), ("Cylinders", Value.num 4),
   ("FuelConsumption", Value.num (13 / 2))]

end App

namespace TrainModel

/-- A training table missing the Fuel column. -/
def df_missing_fuel : DataFrame :=
  ⟨["Make", "Model", "EngineSize", "Cylinders", "FuelConsumption", "CO2Emissions"],
   []⟩

/-- A training table with every required column present. -/
def df_complete : DataFrame :=
  ⟨["Make", "Model", "Fuel", "EngineSize", "Cylinders", "FuelConsumption",
    "CO2Emissions"],
   []⟩

end TrainModel

namespace TrainModel

/-- A fitted encoder for the Fuel column: fill value and seen categories. -/
def fuel_encoder : FittedCatEncoder := ⟨"Gasoline", ["Diesel", "Gasoline"]⟩

/-- A small fitted pipeline over one categorical and one numeric column. -/
def demo_pipeline : FittedPipeline := ⟨[fuel_encoder], [2], fun _ => 165⟩

end TrainModel


theorem TrainModel.catTransform_ignore_total (enc : TrainModel.FittedCatEncoder)
    (v : Option String) :
    ∃ l, TrainModel.catTransform enc TrainModel.HandleUnknown.ignoreUnknown v
      = Except.ok l := by
  by_cases h : (v.getD enc.fillValue) ∈ enc.categories
  · exact ⟨enc.categories.map (fun c => if c = v.getD enc.fillValue then 1 else 0),
      by simp [TrainModel.catTransform, TrainModel.oneHotTransform, h]⟩
  · exact ⟨List.replicate enc.categories.length 0,
      by simp [TrainModel.catTransform, TrainModel.oneHotTransform, h]⟩

theorem TrainModel.encodeCats_ok
    (l : List (Option String × TrainModel.FittedCatEncoder)) :
    ∃ ls, TrainModel.encodeCats l = Except.ok ls := by
  induction l with
  | nil => exact ⟨[], rfl⟩
  | cons a as ih =>
    obtain ⟨ls, hls⟩ := ih
    obtain ⟨l0, hl0⟩ := TrainModel.catTransform_ignore_total a.2 a.1
    exact ⟨l0 :: ls, by simp [TrainModel.encodeCats, hl0, hls]⟩

/-- C5: a training dataset missing at least one required schema column makes
the trainer abort with an error naming exactly the missing columns, before
any fitting, and neither the model file nor the metadata file is written. -/
theorem TrainModel.missing_columns_abort (df : DataFrame) (metaWriteOk : Bool)
    (hmiss : ¬ TrainModel.missing_cols df = []) :
    TrainModel.trainRun (some df) metaWriteOk
      = (Except.error (TrainModel.TrainError.missingColumns (TrainModel.missing_cols df)),
         ⟨false, false⟩)
    ∧ ∀ c, c ∈ TrainModel.missing_cols df
        ↔ (c ∈ TrainModel.REQUIRED_COLUMNS ∧ ¬ c ∈ df.columns) := by
  constructor
  · simp [TrainModel.trainRun, List.isEmpty_iff, hmiss]
  · intro c
    simp [TrainModel.missing_cols, List.mem_filter]

/-- Witness for C5: a table missing the Fuel column. -/
theorem TrainModel.missing_columns_abort_witness :
    TrainModel.trainRun (some TrainModel.df_missing_fuel) true
      = (Except.error (TrainModel.TrainError.missingColumns
          (TrainModel.missing_cols TrainModel.df_missing_fuel)),
         ⟨false, false⟩)
    ∧ ∀ c, c ∈ TrainModel.missing_cols TrainModel.df_missing_fuel
        ↔ (c ∈ TrainModel.REQUIRED_COLUMNS ∧ ¬ c ∈ TrainModel.df_missing_fuel.columns) :=
  TrainModel.missing_columns_abort TrainModel.df_missing_fuel true (by decide)

/-- C10: on a dataset that passes validation the trainer dumps the model
artifact strictly before writing the metadata file, so a failed metadata
write leaves the model written and the metadata missing — a mutually
inconsistent pair of artifacts on disk. -/
theorem TrainModel.model_written_before_metadata (df : DataFrame)
    (hok : TrainModel.missing_cols df = []) :
    TrainModel.trainRun (some df) false
      = (Except.error TrainModel.TrainError.metaWriteFailed, ⟨true, false⟩) := by
  simp [TrainModel.trainRun, hok]

/-- Witness for C10: a complete table with a failing metadata write. -/
theorem TrainModel.model_written_before_metadata_witness :
    TrainModel.trainRun (some TrainModel.df_complete) false
      = (Except.error TrainModel.TrainError.metaWriteFailed, ⟨true, false⟩) :=
  TrainModel.model_written_before_metadata TrainModel.df_complete (by decide)

/-- C2 fails on the code: in the metadata-fallback configuration the
predictor requires the Transmission column, which the trainer neither
declares nor validates, so the two column sets differ. -/
theorem App.schema_fallback_mismatch :
    "Transmission" ∈ App.predictorRequired (App.loadMeta Option.none)
    ∧ ¬ "Transmission" ∈ App.trainerFeatureCols
    ∧ ¬ ((App.predictorRequired (App.loadMeta Option.none)).toFinset
          = App.trainerFeatureCols.toFinset) := by decide

/-- C2 amended: when the trainer-written metadata file is present the
predictor requires exactly the feature columns the trainer declares and
validates; in the hardcoded fallback the predictor additionally requires
Transmission, so the sets differ there. -/
theorem App.schema_consistency_amended :
    (App.predictorRequired (App.loadMeta (some TrainModel.feature_info))).toFinset
      = App.trainerFeatureCols.toFinset
    ∧ (App.predictorRequired (App.loadMeta Option.none)).toFinset
      = insert "Transmission" App.trainerFeatureCols.toFinset := by decide

/-- C6: a categorical value unseen at training time is encoded, under the
handle_unknown="ignore" configuration the trainer fits, as the all-zero
indicator row rather than an error, and single-row predict on the fitted
pipeline still returns a number for every submission. -/
theorem TrainModel.unseen_category_encodes_all_zero
    (enc : TrainModel.FittedCatEncoder) (v : String) (hv : ¬ v ∈ enc.categories)
    (m : TrainModel.FittedPipeline) (catVals : List (Option String))
    (numVals : List (Option ℚ)) :
    TrainModel.catTransform enc TrainModel.HandleUnknown.ignoreUnknown (some v)
      = Except.ok (List.replicate enc.categories.length 0)
    ∧ ∃ q, TrainModel.pipePredict m catVals numVals = Except.ok q := by
  constructor
  · simp [TrainModel.catTransform, TrainModel.oneHotTransform, hv]
  · obtain ⟨ls, hls⟩ := TrainModel.encodeCats_ok (catVals.zip m.catEncoders)
    exact ⟨m.rf (ls.flatten ++ (numVals.zip m.numMedians).map (fun p => p.1.getD p.2)),
      by simp [TrainModel.pipePredict, hls]⟩

/-- Witness for C6: the value Hydrogen was never seen by the Fuel encoder. -/
theorem TrainModel.unseen_category_encodes_all_zero_witness :
    TrainModel.catTransform TrainModel.fuel_encoder
        TrainModel.HandleUnknown.ignoreUnknown (some "Hydrogen")
      = Except.ok (List.replicate TrainModel.fuel_encoder.categories.length 0)
    ∧ ∃ q, TrainModel.pipePredict TrainModel.demo_pipeline [some "Hydrogen"] [Option.none]
        = Except.ok q :=
  TrainModel.unseen_category_encodes_all_zero TrainModel.fuel_encoder "Hydrogen"
    (by decide) TrainModel.demo_pipeline [some "Hydrogen"] [Option.none]

/-- C7: the suggestion category is decided by the direct numeric comparison
of the prediction with the fleet average — strictly above yields the fixed
above-average tip list, at or below (equality included) yields the fixed
at-or-below tip list, with no other computation. -/
theorem App.suggestion_category_spec (p q : ℚ) :
    (p > q → App.suggestionsFor p (some (PyFloat.val q)) = Except.ok App.suggestions_above)
    ∧ (p ≤ q → App.suggestionsFor p (some (PyFloat.val q)) = Except.ok App.suggestions_below) := by
  constructor
  · intro h
    simp [App.suggestionsFor, App.pyGtFleet, h]
  · intro h
    simp [App.suggestionsFor, App.pyGtFleet, not_lt.mpr h]

/-- Witness for C7 at 200 versus 180 and at 165.3 versus 180. -/
theorem App.suggestion_category_spec_witness :
    App.suggestionsFor 200 (some (PyFloat.val 180)) = Except.ok App.suggestions_above
    ∧ App.suggestionsFor (1653 / 10) (some (PyFloat.val 180))
        = Except.ok App.suggestions_below :=
  ⟨(App.suggestion_category_spec 200 180).1 (by norm_num),
   (App.suggestion_category_spec (1653 / 10) 180).2 (by norm_num)⟩

/-- C8: one handler invocation returns the server state (model, metadata,
fleet data, dropdown values) unchanged, and invoking the handler again on the
state it returned, with the same model and the same submission, produces the
identical outcome and state. -/
theorem App.home_idempotent_no_mutation (st : App.ServerState)
    (predict : List (String × App.Value) → Except PyExc (List ℚ))
    (form : Option App.Form) :
    (App.home st predict form).2 = st
    ∧ App.home (App.home st predict form).2 predict form = App.home st predict form := by
  have h : (App.home st predict form).2 = st := by
    cases form with
    | none => rfl
    | some f =>
      cases hb : App.buildRow st.meta f with
      | error e => simp [App.home, hb]
      | ok row =>
        cases ht : App.tryBlock st predict row with
        | ok pr => simp [App.home, hb, ht]
        | error e => simp [App.home, hb, ht]
  exact ⟨h, by rw [h]⟩

/-- C9: with either configuration the server can actually be in (no metadata
file, or the trainer-written one), startup without a loadable reference
dataset raises AttributeError from the dropdown comprehension dereferencing
fleet_df.columns, and every state the server does start in carries a
non-None fleet average — the degraded fleet_avg None mode is unreachable. -/
theorem App.startup_requires_fleet_data (mf : Option MetaDict)
    (hmf : mf = Option.none ∨ mf = some TrainModel.feature_info) :
    App.startup true mf Option.none = Except.error App.StartupError.attributeError
    ∧ ∀ (d : Option DataFrame) (st : App.ServerState),
        App.startup true mf d = Except.ok st → ¬ st.fleet_avg = Option.none := by
  have hcat : ¬ (App.loadMeta mf).categorical.isEmpty := by
    rcases hmf with h | h <;> subst h <;> decide
  constructor
  · simp only [App.startup, if_true]
    simp [hcat]
  · intro d st hok
    cases d with
    | none =>
      simp only [App.startup, if_true] at hok
      simp [hcat] at hok
    | some df =>
      simp only [App.startup, if_true] at hok
      by_cases ht : (App.loadMeta mf).target ∈ df.columns
      · simp [ht] at hok
        rw [← hok]
        simp [App.computeFleetAvg]
      · simp [ht] at hok

/-- Witness for C9 in the no-metadata-file configuration. -/
theorem App.startup_requires_fleet_data_witness :
    App.startup true Option.none Option.none
      = Except.error App.StartupError.attributeError
    ∧ ∀ (d : Option DataFrame) (st : App.ServerState),
        App.startup true Option.none d = Except.ok st → ¬ st.fleet_avg = Option.none :=
  App.startup_requires_fleet_data Option.none (Or.inl rfl)

/-- C3: the fleet average computed at startup from a loaded reference table
is the arithmetic mean of the target values over exactly the rows where the
target is present; without a reference table the fleet_avg expression is
None, and startup raises before serving, so no downstream comparison ever
uses the None value. -/
theorem App.fleet_avg_spec (mf : Option MetaDict) (df : DataFrame)
    (st : App.ServerState)
    (hok : App.startup true mf (some df) = Except.ok st)
    (hcells : ∀ x ∈ df.col (App.loadMeta mf).target, x.isStr = false)
    (hnum : ¬ presentNums (df.col (App.loadMeta mf).target) = [])
    (hcat : ¬ (App.loadMeta mf).categorical = []) :
    st.fleet_avg = some (PyFloat.val
      ((presentNums (df.col (App.loadMeta mf).target)).sum
        / ((presentNums (df.col (App.loadMeta mf).target)).length : ℚ)))
    ∧ App.computeFleetAvg Option.none (App.loadMeta mf).target = Option.none
    ∧ ∀ st2, ¬ App.startup true mf Option.none = Except.ok st2 := by
  refine ⟨?_, rfl, ?_⟩
  · simp only [App.startup, if_true] at hok
    by_cases ht : (App.loadMeta mf).target ∈ df.columns
    · simp [ht] at hok
      rw [← hok]
      simp [App.computeFleetAvg, seriesMean, List.length_eq_zero, hnum]
    · simp [ht] at hok
  · intro st2 h
    have hcat2 : ¬ (App.loadMeta mf).categorical.isEmpty := by
      simp [List.isEmpty_iff, hcat]
    simp only [App.startup, if_true] at h
    simp [hcat2] at h

/-- Witness for C3 on the demo reference table: mean of 160 and 200 over the
two rows whose target is present, with the third target cell missing. -/
theorem App.fleet_avg_spec_witness :
    App.demo_started.fleet_avg = some (PyFloat.val
      ((presentNums (App.demo_df.col (App.loadMeta Option.none).target)).sum
        / ((presentNums (App.demo_df.col (App.loadMeta Option.none).target)).length : ℚ)))
    ∧ App.computeFleetAvg Option.none (App.loadMeta Option.none).target = Option.none
    ∧ ∀ st2, ¬ App.startup true Option.none Option.none = Except.ok st2 :=
  App.fleet_avg_spec Option.none App.demo_df App.demo_started
    (by
      have hmean : seriesMean (App.demo_df.col "CO2Emissions") = PyFloat.val 180 := by
        rw [show App.demo_df.col "CO2Emissions"
            = [Cell.num 160, Cell.num 200, Cell.na] from rfl]
        norm_num [seriesMean,
          show presentNums [Cell.num 160, Cell.num 200, Cell.na] = [160, 200] from rfl]
      rw [show App.startup true Option.none (some App.demo_df) = Except.ok
        ⟨App.default_meta, some App.demo_df,
         some (seriesMean (App.demo_df.col "CO2Emissions")),
         [("Make", ["Honda", "Tata", "Toyota"]),
          ("Model", ["Civic", "Corolla", "Nexon"]),
          ("Fuel", ["Diesel", "Gasoline", "Petrol"]),
          ("Transmission", ["AT", "MT"])]⟩ from rfl, hmean]
      rfl)
    (by decide) (by decide) (by decide)

/-- C1 fails on the code: the float conversion of app.py line 271 sits
outside the try block that begins at line 274, so a POST whose EngineSize
field does not parse makes the handler raise ValueError past the per-request
boundary instead of producing the user-visible error result; the module
state is untouched, and the same server still answers a subsequent valid
submission. -/
theorem App.home_unparseable_numeric_raises :
    App.home App.demo_state App.demo_predict (some App.form_bad)
      = (App.HomeResult.unhandled PyExc.valueError, App.demo_state)
    ∧ App.home App.demo_state App.demo_predict (some App.form_good)
      = (App.HomeResult.page (some (App.PredDisplay.value (1653 / 10)))
          App.suggestions_below, App.demo_state) := by
  constructor
  · simp [App.home, App.buildRow, App.buildRowAux, App.rowCell, App.pyFloat,
      App.formGet, App.default_meta, App.form_bad, App.demo_state, parseFloat,
      List.lookup, show parseFloatLit "abc" = Option.none from rfl]
  · have hrow : App.buildRow App.default_meta App.form_good
        = Except.ok App.demo_row := by
      simp [App.buildRow, App.buildRowAux, App.rowCell, App.pyFloat, App.formGet,
        App.default_meta, App.form_good, App.demo_row, App.demo_state, parseFloat,
        List.lookup,
        show parseFloatLit "2.0" = some ⟨false, 2, 0, 1⟩ from rfl,
        show parseFloatLit "4" = some ⟨false, 4, 0, 0⟩ from rfl,
        show parseFloatLit "6.5" = some ⟨false, 6, 5, 1⟩ from rfl]
      norm_num [FloatLit.toRat]
    have hround : App.pyRound2 (1653 / 10) = 1653 / 10 := by
      norm_num [App.pyRound2, App.roundHalfEven]
    simp [App.home, hrow, App.tryBlock, App.demo_predict, App.demo_state,
      App.suggestionsFor, App.pyGtFleet, hround]
    norm_num

theorem App.rowCell_ok_fst (numeric : List String) (f : App.Form) (c : String)
    (cv : String × App.Value) (h : App.rowCell numeric f c = Except.ok cv) :
    cv.1 = c := by
  unfold App.rowCell at h
  split at h
  · split at h
    · injection h with h1
      rw [← h1]
    · exact Except.noConfusion h
  · injection h with h1
    rw [← h1]

theorem App.rowCell_numeric_ok (numeric : List String) (f : App.Form) (c : String)
    (cv : String × App.Value) (hc : c ∈ numeric)
    (h : App.rowCell numeric f c = Except.ok cv) :
    ∃ s q, App.formGet f c = some s ∧ parseFloat s = some q
      ∧ cv = (c, App.Value.num q) := by
  unfold App.rowCell at h
  rw [if_pos hc] at h
  cases hp : App.pyFloat (App.formGet f c) with
  | ok q =>
    rw [hp] at h
    injection h with h1
    unfold App.pyFloat at hp
    cases hg : App.formGet f c with
    | none =>
      simp only [hg] at hp
      exact Except.noConfusion hp
    | some s =>
      simp only [hg] at hp
      cases hps : parseFloat s with
      | none =>
        simp only [hps] at hp
        exact Except.noConfusion hp
      | some q2 =>
        simp only [hps] at hp
        injection hp with h2
        exact ⟨s, q, rfl, by rw [hps]; exact congrArg some h2, h1.symm⟩
  | error e =>
    rw [hp] at h
    exact Except.noConfusion h

theorem App.rowCell_categorical_ok (numeric : List String) (f : App.Form) (c : String)
    (cv : String × App.Value) (hc : ¬ c ∈ numeric)
    (h : App.rowCell numeric f c = Except.ok cv) :
    cv = (c,
      match App.formGet f c with
      | some s => App.Value.str s
      | Option.none => App.Value.none) := by
  unfold App.rowCell at h
  rw [if_neg hc] at h
  injection h with h1
  exact h1.symm

theorem App.buildRowAux_ok (numeric : List String) (f : App.Form)
    (l : List String) (row : List (String × App.Value))
    (h : App.buildRowAux numeric f l = Except.ok row) :
    row.map Prod.fst = l
    ∧ ∀ cv, cv ∈ row → App.rowCell numeric f cv.1 = Except.ok cv := by
  induction l generalizing row with
  | nil =>
    injection h with h1
    subst h1
    exact ⟨rfl, by intro cv hcv; cases hcv⟩
  | cons c cs ih =>
    unfold App.buildRowAux at h
    split at h
    · exact Except.noConfusion h
    · rename_i v hv
      split at h
      · exact Except.noConfusion h
      · rename_i rest hrest
        injection h with h1
        subst h1
        obtain ⟨ihm, ihc⟩ := ih rest hrest
        have hfst := App.rowCell_ok_fst numeric f c v hv
        refine ⟨by simp [ihm, hfst], ?_⟩
        intro cv hcv
        rcases List.mem_cons.mp hcv with hcv | hcv
        · subst hcv
          rw [hfst]
          exact hv
        · exact ihc cv hcv

/-- C4: a valid submission yields exactly one feature row whose column list
is the schema's categorical-then-numeric columns in schema order, with each
numeric entry the float of the submitted text and each categorical entry the
submitted text itself; the fitted model's predict is applied to that single
row, the first element of its output is rounded to two decimal places and
becomes the displayed prediction. -/
theorem App.home_inference_row_spec (st : App.ServerState)
    (predict : List (String × App.Value) → Except PyExc (List ℚ))
    (f : App.Form) (row : List (String × App.Value)) (p : ℚ) (rest : List ℚ) (fq : ℚ)
    (hrow : App.buildRow st.meta f = Except.ok row)
    (hpred : predict row = Except.ok (p :: rest))
    (hfa : st.fleet_avg = some (PyFloat.val fq)) :
    row.map Prod.fst = st.meta.categorical ++ st.meta.numeric
    ∧ (∀ c, c ∈ st.meta.numeric →
        ∃ s q, App.formGet f c = some s ∧ parseFloat s = some q
          ∧ (c, App.Value.num q) ∈ row)
    ∧ (∀ c, c ∈ st.meta.categorical → ¬ c ∈ st.meta.numeric →
        (c,
          match App.formGet f c with
          | some s => App.Value.str s
          | Option.none => App.Value.none) ∈ row)
    ∧ App.home st predict (some f)
        = (App.HomeResult.page (some (App.PredDisplay.value (App.pyRound2 p)))
            (if App.pyRound2 p > fq then App.suggestions_above
             else App.suggestions_below), st) := by
  unfold App.buildRow at hrow
  obtain ⟨hmap, hcells⟩ := App.buildRowAux_ok st.meta.numeric f
    (st.meta.categorical ++ st.meta.numeric) row hrow
  refine ⟨hmap, ?_, ?_, ?_⟩
  · intro c hc
    have hcmem : c ∈ row.map Prod.fst := by
      rw [hmap]
      exact List.mem_append.mpr (Or.inr hc)
    obtain ⟨cv, hcvrow, hcvfst⟩ := List.mem_map.mp hcmem
    have hok := hcells cv hcvrow
    rw [hcvfst] at hok
    obtain ⟨s, q, hs, hq, hcv⟩ := App.rowCell_numeric_ok _ _ _ _ hc hok
    exact ⟨s, q, hs, hq, hcv ▸ hcvrow⟩
  · intro c hc hnc
    have hcmem : c ∈ row.map Prod.fst := by
      rw [hmap]
      exact List.mem_append.mpr (Or.inl hc)
    obtain ⟨cv, hcvrow, hcvfst⟩ := List.mem_map.mp hcmem
    have hok := hcells cv hcvrow
    rw [hcvfst] at hok
    have hcv := App.rowCell_categorical_ok _ _ _ _ hnc hok
    exact hcv ▸ hcvrow
  · have hrow2 : App.buildRow st.meta f = Except.ok row := hrow
    by_cases hgt : App.pyRound2 p > fq
    · simp [App.home, hrow2, App.tryBlock, hpred, hfa, App.suggestionsFor,
        App.pyGtFleet, hgt]
    · simp [App.home, hrow2, App.tryBlock, hpred, hfa, App.suggestionsFor,
        App.pyGtFleet, hgt]

/-- Witness for C4 on the valid demo submission against the fleet average
180, with the stub model predicting 165.3. -/
theorem App.home_inference_row_spec_witness :
    App.demo_row.map Prod.fst
        = App.demo_state.meta.categorical ++ App.demo_state.meta.numeric
    ∧ (∀ c, c ∈ App.demo_state.meta.numeric →
        ∃ s q, App.formGet App.form_good c = some s ∧ parseFloat s = some q
          ∧ (c, App.Value.num q) ∈ App.demo_row)
    ∧ (∀ c, c ∈ App.demo_state.meta.categorical → ¬ c ∈ App.demo_state.meta.numeric →
        (c,
          match App.formGet App.form_good c with
          | some s => App.Value.str s
          | Option.none => App.Value.none) ∈ App.demo_row)
    ∧ App.home App.demo_state App.demo_predict (some App.form_good)
        = (App.HomeResult.page
            (some (App.PredDisplay.value (App.pyRound2 (1653 / 10))))
            (if App.pyRound2 (1653 / 10) > 180 then App.suggestions_above
             else App.suggestions_below), App.demo_state) :=
  App.home_inference_row_spec App.demo_state App.demo_predict App.form_good
    App.demo_row (1653 / 10) [] 180
    (by
      simp [App.buildRow, App.buildRowAux, App.rowCell, App.pyFloat, App.formGet,
        App.default_meta, App.form_good, App.demo_row, App.demo_state, parseFloat,
        List.lookup,
        show parseFloatLit "2.0" = some ⟨false, 2, 0, 1⟩ from rfl,
        show parseFloatLit "4" = some ⟨false, 4, 0, 0⟩ from rfl,
        show parseFloatLit "6.5" = some ⟨false, 6, 5, 1⟩ from rfl]
      norm_num [FloatLit.toRat])
    rfl rfl
